import Mathlib

/-!
Verification development for the OAuth token-lifecycle subsystem of the
carthooks Python SDK. The core implementation module (carthooks.sdk with
Client, OAuthConfig, OAuthTokens, the token manager, grant strategies and
the authorize-URL builder) is not shipped under src/; only its caller,
examples/oauth_example.py, is. Every definition below whose doc comment
starts with `Modelled from the spec:` is therefore a faithful shallow
embedding built from the specification text (section references given),
using the field and method names the example file exercises.
-/

namespace Carthooks

/-- Modelled from the spec: the TokenSet data model of spec section 3
(`OAuthTokens` in the example imports). `access_token` is an opaque string,
`refresh_token` and `scope` are optional, `expires_at` is an absolute
timestamp (issuance time plus server-reported lifetime). A store holding no
token set at all is the "empty" case and is represented by `Option` at the
store level, so `expires_at` is always set when an access token is set, as
the spec invariant requires. Time is modelled as `Nat`. -/
structure OAuthTokens where
  access_token : String
  refresh_token : Option String
  scope : Option String
  expires_at : Nat
deriving DecidableEq, Repr

/-- Modelled from the spec: the TokenStore of spec section 4.1, holding the
current token set or nothing ("empty"). -/
abbrev TokenStore := Option OAuthTokens

/-- Modelled from the spec: `TokenStore.get` — non-blocking snapshot read
(spec section 4.1). -/
def TokenStore.get (s : TokenStore) : Option OAuthTokens := s

/-- Modelled from the spec: `TokenStore.set` — atomic replace (spec
section 4.1). -/
def TokenStore.set (_s : TokenStore) (t : OAuthTokens) : TokenStore := some t

/-- Modelled from the spec: `TokenStore.is_expired(skew)` — true if
`now + skew >= expires_at` or the store is empty (spec section 4.1). `now`
is passed explicitly since the embedding is pure. -/
def TokenStore.is_expired (s : TokenStore) (now skew : Nat) : Bool :=
  match s with
  | none => true
  | some t => decide (t.expires_at ≤ now + skew)

/-- Modelled from the spec: construction of a token set at issuance time
`now` from a server-reported lifetime `expires_in` (spec sections 3 and 6:
`expires_at` is derived from issuance time plus lifetime). -/
def OAuthTokens.issue (now : Nat) (access : String) (rt : Option String)
    (sc : Option String) (expires_in : Nat) : OAuthTokens :=
  { access_token := access
    refresh_token := rt
    scope := sc
    expires_at := now + expires_in }

/-- Modelled from the spec: the error kinds of spec section 7. -/
inductive OAuthError where
  | configurationError
  | networkError
  | authError
  | stateError
deriving DecidableEq, Repr

/-- Modelled from the spec: the closed set of grant-strategy variants of
spec section 4.2. -/
inductive GrantStrategy where
  | clientCredentials
  | userContextExchange
  | authorizationCode
  | refreshTokenGrant
deriving DecidableEq, Repr

/-- Modelled from the spec: the OAuthConfig data model of spec section 3
(`client_id`, `client_secret`, `auto_refresh`, optional seed
`refresh_token`). The `on_token_refresh` callback is invoked by reference;
callback invocations are modelled as events recorded by operations, not as
a stored function, so configs stay decidably comparable. -/
structure OAuthConfig where
  client_id : String
  client_secret : String
  auto_refresh : Bool
  refresh_token : Option String
deriving DecidableEq, Repr

/-- Modelled from the spec: the TokenManager lifecycle states of spec
section 4.4. -/
inductive ManagerPhase where
  | uninitialized
  | initializing
  | ready
  | refreshing
  | failed
deriving DecidableEq, Repr

/-- Modelled from the spec: the Client / TokenManager state (spec
sections 2 and 4.4): it owns an optional OAuthConfig, the TokenStore, the
lifecycle phase, the originally selected issuance strategy (kept for the
refresh fallback of section 4.4) and a closed flag for cleanup. -/
structure Client where
  oauth_config : Option OAuthConfig
  store : TokenStore
  phase : ManagerPhase
  issuance_strategy : Option GrantStrategy
  closed : Bool
deriving DecidableEq, Repr

/-- Modelled from the spec: a freshly constructed client (spec section 4.4,
state `Uninitialized`; the example constructs `Client(oauth_config=...)`). -/
def Client.mkNew (cfg : Option OAuthConfig) : Client :=
  { oauth_config := cfg
    store := none
    phase := .uninitialized
    issuance_strategy := none
    closed := false }

/-- Modelled from the spec: the JSON token-endpoint response of spec
section 6 (`access_token`, optional `refresh_token`, `expires_in`,
optional `scope`). -/
structure TokenResponse where
  access_token : String
  refresh_token : Option String
  expires_in : Nat
  scope : Option String
deriving DecidableEq, Repr

/-- Modelled from the spec: the outcome record of a public manager
operation: the success/error result (spec section 7: every public
operation returns an outcome rather than aborting), the updated client
state, how many network exchange calls were issued, and the token sets
handed to the `on_token_refresh` callback. -/
structure OpResult where
  result : Except OAuthError OAuthTokens
  client : Client
  network_calls : Nat
  callback_events : List OAuthTokens
deriving Repr

/-- Modelled from the spec: `get_current_tokens()` — non-blocking read of
the TokenStore, does not trigger refresh (spec section 4.4). -/
def Client.get_current_tokens (c : Client) : Option OAuthTokens :=
  TokenStore.get c.store

/-- Modelled from the spec: `set_oauth_config` — replaces the config
atomically and does not itself clear the TokenStore (spec section 4.4). -/
def Client.set_oauth_config (c : Client) (cfg : OAuthConfig) : Client :=
  { c with oauth_config := some cfg }

/-- Modelled from the spec: `get_oauth_config` accessor used by the
example file. -/
def Client.get_oauth_config (c : Client) : Option OAuthConfig :=
  c.oauth_config

/-- Modelled from the spec: grant-strategy selection on `initialize`
(spec section 4.4): a provided `user_access_token` selects
UserContextExchange, otherwise ClientCredentials. -/
def selectInitStrategy (user_access_token : Option String) : GrantStrategy :=
  match user_access_token with
  | some _ => .userContextExchange
  | none => .clientCredentials

/-- Modelled from the spec: `initialize_oauth(optional user_access_token)`
(spec section 4.4). With no OAuthConfig it fails immediately with
ConfigurationError and issues no network call (spec sections 4.4 and 7);
otherwise it issues exactly one exchange with the selected strategy, whose
outcome is a parameter of the pure embedding. On success the TokenStore is
populated and the `on_token_refresh` callback fires; on error the manager
moves to Failed. -/
def Client.initialize_oauth (c : Client) (user_access_token : Option String)
    (now : Nat) (outcome : Except OAuthError TokenResponse) : OpResult :=
  match c.oauth_config with
  | none => ⟨.error .configurationError, c, 0, []⟩
  | some _ =>
    let strat := selectInitStrategy user_access_token
    match outcome with
    | .error e =>
      ⟨.error e, { c with phase := .failed, issuance_strategy := some strat },
       1, []⟩
    | .ok resp =>
      let tok := OAuthTokens.issue now resp.access_token resp.refresh_token
        resp.scope resp.expires_in
      ⟨.ok tok,
       { c with
         store := TokenStore.set c.store tok
         phase := .ready
         issuance_strategy := some strat },
       1, [tok]⟩

/-- Modelled from the spec: `refresh_oauth_token()` (spec sections 4.4
and 7). With no OAuthConfig it fails immediately with ConfigurationError
and no network call. Otherwise it uses RefreshTokenGrant if a
refresh_token is known (from the store, else the config seed), falls back
to the original issuance strategy when none is known, and returns
StateError when neither exists. The `auto_refresh` flag is not consulted:
it controls only automatic triggering (spec section 9). On a successful
exchange the stored refresh_token is replaced exactly when the response
carries a new one (rotation, spec section 4.2). -/
def Client.refresh_oauth_token (c : Client) (now : Nat)
    (outcome : Except OAuthError TokenResponse) : OpResult :=
  match c.oauth_config with
  | none => ⟨.error .configurationError, c, 0, []⟩
  | some cfg =>
    let stored_rt : Option String :=
      match c.store with
      | some t => t.refresh_token
      | none => none
    let known_rt : Option String :=
      match stored_rt with
      | some r => some r
      | none => cfg.refresh_token
    match known_rt, c.issuance_strategy with
    | none, none => ⟨.error .stateError, c, 0, []⟩
    | _, _ =>
      match outcome with
      | .error e => ⟨.error e, { c with phase := .failed }, 1, []⟩
      | .ok resp =>
        let new_rt : Option String :=
          match resp.refresh_token with
          | some r => some r
          | none => known_rt
        let tok := OAuthTokens.issue now resp.access_token new_rt resp.scope
          resp.expires_in
        ⟨.ok tok,
         { c with
           store := TokenStore.set c.store tok
           phase := .ready },
         1, [tok]⟩

/-- Modelled from the spec: `close()` — releasing the client is always a
safe final step; modelled as an operation that can in principle report an
error but in fact always succeeds, for every client state (example file,
`finally: client.close()`). -/
def Client.close (c : Client) : Except OAuthError Client :=
  .ok { c with closed := true }

/-- Modelled from the spec: exiting the context-manager (`with`) block
performs the same cleanup as `close()` (example file, section 8 example). -/
def Client.context_exit (c : Client) : Except OAuthError Client :=
  Client.close c

/-- Modelled from the spec: the AuthorizeCodeRequest data model of spec
section 3 (`OAuthAuthorizeCodeRequest` in the example imports):
`client_id`, `redirect_uri`, `state`, optional numeric
`target_tenant_id`. -/
structure OAuthAuthorizeCodeRequest where
  client_id : String
  redirect_uri : String
  state : String
  target_tenant_id : Option Nat
deriving DecidableEq, Repr

/-- Hex digit for a value below 16, uppercase, as used by URL
percent-encoding. -/
def hexDigit (n : Nat) : Char :=
  if n < 10 then Char.ofNat (48 + n) else Char.ofNat (55 + n)

/-- Characters that URL encoding leaves untouched (RFC 3986 unreserved
set: letters, digits, hyphen, underscore, dot, tilde). -/
def isUnreserved (c : Char) : Bool :=
  c.isAlphanum || c == '-' || c == '_' || c == '.' || c == '~'

/-- Percent-encode a single character. Characters are treated as their
code points (the inputs of interest are ASCII). -/
def percentEncodeChar (c : Char) : List Char :=
  if isUnreserved c then [c]
  else ['%', hexDigit (c.toNat / 16 % 16), hexDigit (c.toNat % 16)]

/-- Modelled from the spec: URL-encoding of a query-parameter value
(spec section 4.3 requires all parameter values to be URL-encoded). -/
def urlencode (s : String) : String :=
  String.mk (s.data.flatMap percentEncodeChar)

/-- Modelled from the spec: the query string built by AuthorizeURLBuilder
(spec section 4.3): client_id, redirect_uri, state, response_type=code,
and a tenant parameter exactly when `target_tenant_id` is set, every value
URL-encoded. -/
def authorizeQuery (r : OAuthAuthorizeCodeRequest) : String :=
  "client_id=" ++ urlencode r.client_id ++
  "&redirect_uri=" ++ urlencode r.redirect_uri ++
  "&state=" ++ urlencode r.state ++
  "&response_type=code" ++
  (match r.target_tenant_id with
   | some t => "&tenant_id=" ++ toString t
   | none => "")

/-- Modelled from the spec: AuthorizeURLBuilder (spec section 4.3) — a
pure, deterministic function from the request to a fully formed redirect
URL; no network call. The authorization endpoint base is a parameter
because the spec leaves the host to configuration. -/
def buildAuthorizeURL (base : String) (r : OAuthAuthorizeCodeRequest) : String :=
  base ++ "?" ++ authorizeQuery r

/-- `needleIsPrefixOf needle hay` decides whether `needle` is an initial
segment of `hay` (character lists). -/
def needleIsPrefixOf : List Char → List Char → Bool
  | [], _ => true
  | _ :: _, [] => false
  | a :: as, b :: bs => a == b && needleIsPrefixOf as bs

/-- `hasSub needle hay` decides whether `needle` occurs contiguously
inside `hay` (character lists). -/
def hasSub (needle : List Char) : List Char → Bool
  | [] => needleIsPrefixOf needle []
  | b :: bs => needleIsPrefixOf needle (b :: bs) || hasSub needle bs

/-- `strContains hay needle` decides whether the string `needle` occurs
contiguously inside the string `hay`. -/
def strContains (hay needle : String) : Bool :=
  hasSub needle.data hay.data

/-- Modelled from the spec: responses a downstream API call can produce,
as seen by AuthenticatedRequestDecorator (spec section 4.5): success, a
401-equivalent authentication failure, or some other failure. -/
inductive ApiResponse where
  | ok (body : String)
  | unauthorized
  | failure (e : OAuthError)
deriving DecidableEq, Repr

/-- The observable outcome of one decorated request: the response finally
surfaced to the caller, how many downstream calls were made, and how many
token refreshes were performed. -/
structure DecoratorResult where
  response : ApiResponse
  calls : Nat
  refreshes : Nat
deriving DecidableEq, Repr

/-- Modelled from the spec: AuthenticatedRequestDecorator retry policy
(spec sections 4.5 and 7). `call n` is the downstream response to the
n-th attempt. The first attempt is made; on a 401-equivalent failure
exactly one refresh-and-retry happens and the second response is surfaced
as is; every other response is surfaced immediately with no refresh. -/
def authenticated_request (call : Nat → ApiResponse) : DecoratorResult :=
  match call 0 with
  | .unauthorized => ⟨call 1, 2, 1⟩
  | r => ⟨r, 1, 0⟩

/-- Modelled from the spec: the events of the concurrent-initialization
protocol of spec sections 4.4 and 5: a caller arrives at `initialize`, or
the single in-flight exchange completes with an outcome. -/
inductive InitEvent where
  | arrive
  | complete (o : Except OAuthError TokenResponse)

/-- Modelled from the spec: the manager state observed by the
interleaving model of concurrent `initialize` calls (spec section 5):
lifecycle phase, number of exchanges currently in flight, total exchange
requests issued, callers currently waiting on the gate, and the outcome
each served caller observed. -/
structure MgrState where
  phase : ManagerPhase
  inFlight : Nat
  exchangesIssued : Nat
  callers : Nat
  observations : List (Except OAuthError TokenResponse)

/-- Modelled from the spec: one interleaving step (spec sections 4.4
and 5). A caller arriving while Uninitialized takes the gate and issues
the single exchange; a caller arriving while Initializing joins the
pending exchange without issuing a duplicate; completion releases the
gate, moves to Ready or Failed, and delivers the same outcome to every
waiting caller. -/
def initStep (s : MgrState) (e : InitEvent) : MgrState :=
  match e with
  | .arrive =>
    match s.phase with
    | .uninitialized =>
      { s with
        phase := .initializing
        inFlight := s.inFlight + 1
        exchangesIssued := s.exchangesIssued + 1
        callers := s.callers + 1 }
    | .initializing => { s with callers := s.callers + 1 }
    | _ => s
  | .complete o =>
    match s.phase with
    | .initializing =>
      { s with
        phase := (match o with | .ok _ => .ready | .error _ => .failed)
        inFlight := s.inFlight - 1
        callers := 0
        observations := List.replicate s.callers o }
    | _ => s

/-- Run a sequence of interleaving events from a state. -/
def initRun (s : MgrState) (es : List InitEvent) : MgrState :=
  es.foldl initStep s

/-- The initial manager state: Uninitialized, no exchange in flight. -/
def initState : MgrState :=
  { phase := .uninitialized
    inFlight := 0
    exchangesIssued := 0
    callers := 0
    observations := [] }

/-- The gate invariant of spec section 5: the exchange gate is held (one
exchange in flight) exactly while the manager is Initializing, and no
exchange is in flight otherwise. -/
def InvGate (s : MgrState) : Prop :=
  (s.phase = .initializing → s.inFlight = 1) ∧
  (s.phase ≠ .initializing → s.inFlight = 0)

/-! ## Helper lemmas -/

theorem initRun_append (s : MgrState) (l1 l2 : List InitEvent) :
    initRun s (l1 ++ l2) = initRun (initRun s l1) l2 := by
  simp [initRun, List.foldl_append]

theorem initRun_arrive_initializing (k : Nat) :
    ∀ (s : MgrState), s.phase = .initializing →
      initRun s (List.replicate k InitEvent.arrive) =
        { s with callers := s.callers + k } := by
  induction k with
  | zero => intro s _; simp [initRun]
  | succ m ih =>
    intro s hs
    rw [List.replicate_succ]
    show initRun (initStep s .arrive) (List.replicate m InitEvent.arrive) = _
    rw [initStep]
    simp only [hs]
    rw [ih ⟨.initializing, s.inFlight, s.exchangesIssued, s.callers + 1,
      s.observations⟩ rfl]
    simp [MgrState.mk.injEq]
    omega

theorem initRun_replicate_arrive (n : Nat) (hn : 1 ≤ n) :
    initRun initState (List.replicate n InitEvent.arrive) =
      { phase := .initializing, inFlight := 1, exchangesIssued := 1,
        callers := n, observations := [] } := by
  obtain ⟨m, rfl⟩ : ∃ m, n = m + 1 := ⟨n - 1, by omega⟩
  rw [List.replicate_succ]
  show initRun (initStep initState .arrive) (List.replicate m InitEvent.arrive) = _
  rw [initRun_arrive_initializing m _ rfl]
  simp [initState, initStep, MgrState.mk.injEq]
  omega

theorem invGate_step (s : MgrState) (e : InitEvent) (h : InvGate s) :
    InvGate (initStep s e) := by
  obtain ⟨h1, h2⟩ := h
  cases e with
  | arrive =>
    cases hp : s.phase <;>
      simp_all [initStep, InvGate, hp]
  | complete o =>
    cases hp : s.phase <;>
      cases o <;> simp_all [initStep, InvGate, hp]

theorem invGate_run (es : List InitEvent) :
    ∀ (s : MgrState), InvGate s → InvGate (initRun s es) := by
  induction es with
  | nil => intro s h; exact h
  | cons e rest ih =>
    intro s h
    exact ih (initStep s e) (invGate_step s e h)

theorem needleIsPrefixOf_refl (l : List Char) : needleIsPrefixOf l l = true := by
  induction l with
  | nil => rfl
  | cons a as ih => simp [needleIsPrefixOf, ih]

theorem hasSub_self (n : List Char) : hasSub n n = true := by
  cases n with
  | nil => rfl
  | cons b bs => simp [hasSub, needleIsPrefixOf_refl]

theorem hasSub_append_left (p : List Char) {n h : List Char}
    (hh : hasSub n h = true) : hasSub n (p ++ h) = true := by
  induction p with
  | nil => simpa using hh
  | cons a as ih => simp [hasSub, ih]

theorem strContains_append_self (p s : String) :
    strContains (p ++ s) s = true := by
  show hasSub s.data (p ++ s).data = true
  rw [String.data_append]
  exact hasSub_append_left p.data (hasSub_self s.data)

/-! ## Claim theorems -/

/-- C2 counterexample: the claim asserts that for every skew,
`is_expired(skew)` is false immediately after a successful `set()` of a
token set with a positive lifetime. Setting a token with lifetime 1 at
time 0 and asking with skew 2 yields true, refuting the claim as stated. -/
theorem c2_counterexample :
    (TokenStore.set (none : TokenStore)
      (OAuthTokens.issue 0 "tok" none none 1)).is_expired 0 2 = true := by
  decide

/-- C2 (amended): for every store state, time and skew, `is_expired(skew)`
is true iff the store is empty or `now >= expires_at - skew` (equivalently
`now + skew >= expires_at`); and it is false immediately after a
successful `set()` of a token set whose lifetime strictly exceeds the
skew. -/
theorem c2_is_expired_iff :
    (∀ (s : TokenStore) (now skew : Nat),
      s.is_expired now skew = true ↔
        (s = none ∨ ∃ t, s = some t ∧ t.expires_at - skew ≤ now)) ∧
    (∀ (s : TokenStore) (now : Nat) (access : String) (rt sc : Option String)
      (lifetime skew : Nat), skew < lifetime →
      (TokenStore.set s
        (OAuthTokens.issue now access rt sc lifetime)).is_expired now skew
        = false) := by
  constructor
  · intro s now skew
    cases s with
    | none => simp [TokenStore.is_expired]
    | some t =>
      simp [TokenStore.is_expired]
  · intro s now access rt sc lifetime skew h
    simp [TokenStore.set, TokenStore.is_expired, OAuthTokens.issue]
    omega

/-- C2 witness: concrete instance of the amended claim — setting a token
with lifetime 60 at time 0 and asking with skew 2 yields false. -/
theorem c2_witness :
    (TokenStore.set (none : TokenStore)
      (OAuthTokens.issue 0 "tok" none none 60)).is_expired 0 2 = false :=
  c2_is_expired_iff.2 none 0 "tok" none none 60 2 (by decide)

/-- C3: on a client with no OAuthConfig, both `refresh_oauth_token` and
`initialize_oauth` fail immediately with ConfigurationError, leave the
client unchanged, issue zero network calls and fire no callback. -/
theorem c3_no_config_fails_immediately :
    ∀ (c : Client) (now : Nat) (o : Except OAuthError TokenResponse)
      (u : Option String), c.oauth_config = none →
      c.refresh_oauth_token now o =
        ⟨.error .configurationError, c, 0, []⟩ ∧
      c.initialize_oauth u now o =
        ⟨.error .configurationError, c, 0, []⟩ := by
  intro c now o u h
  constructor
  · simp [Client.refresh_oauth_token, h]
  · simp [Client.initialize_oauth, h]

/-- C3 witness: a freshly built client with no config, refreshed at time 5
against a would-be network error, returns ConfigurationError with zero
network calls. -/
theorem c3_witness :
    (Client.mkNew none).refresh_oauth_token 5 (.error .networkError) =
      ⟨.error .configurationError, Client.mkNew none, 0, []⟩ :=
  (c3_no_config_fails_immediately (Client.mkNew none) 5
    (.error .networkError) none rfl).1

/-- C5: `set_oauth_config` replaces the config and leaves the TokenStore
untouched: `get_current_tokens` immediately after reconfiguration returns
the prior token set unchanged. -/
theorem c5_set_oauth_config_preserves_tokens :
    ∀ (c : Client) (cfg : OAuthConfig),
      (c.set_oauth_config cfg).get_current_tokens = c.get_current_tokens ∧
      (c.set_oauth_config cfg).store = c.store ∧
      (c.set_oauth_config cfg).oauth_config = some cfg := by
  intro c cfg
  exact ⟨rfl, rfl, rfl⟩

/-- C10: `close()` always completes successfully (never an error result)
for every client state, including a client with no config or one whose
OAuth operations failed, and the context-manager exit performs exactly the
same cleanup. -/
theorem c10_close_always_safe :
    ∀ (c : Client),
      (∃ c2, c.close = Except.ok c2 ∧ c2.closed = true) ∧
      c.context_exit = c.close := by
  intro c
  exact ⟨⟨{ c with closed := true }, rfl, rfl⟩, rfl⟩

/-- C4: the decorator makes at most two downstream calls and at most one
refresh; a 401-equivalent first response triggers exactly one
refresh-and-retry whose outcome is surfaced as is; a non-401 first
response is surfaced immediately with no refresh; when the retry also
fails with 401 the failure is surfaced and no second refresh or retry
happens. -/
theorem c4_single_refresh_retry :
    ∀ (call : Nat → ApiResponse),
      (authenticated_request call).calls ≤ 2 ∧
      (authenticated_request call).refreshes ≤ 1 ∧
      (call 0 = .unauthorized →
        authenticated_request call = ⟨call 1, 2, 1⟩) ∧
      (call 0 ≠ .unauthorized →
        authenticated_request call = ⟨call 0, 1, 0⟩) ∧
      (call 0 = .unauthorized → call 1 = .unauthorized →
        (authenticated_request call).response = .unauthorized ∧
        (authenticated_request call).refreshes = 1 ∧
        (authenticated_request call).calls = 2) := by
  intro call
  cases h0 : call 0 <;> simp_all [authenticated_request]

/-- C4 witness: a downstream API that answers 401 to every attempt: the
decorator surfaces the 401 after exactly two calls and one refresh. -/
theorem c4_witness :
    authenticated_request (fun _ => ApiResponse.unauthorized) =
      ⟨ApiResponse.unauthorized, 2, 1⟩ :=
  (c4_single_refresh_retry (fun _ => ApiResponse.unauthorized)).2.2.1 rfl

/-- C6: a refresh via RefreshTokenGrant with a valid stored refresh_token
and a successful response stores a token set whose access_token and
expires_at come from the response, and whose refresh_token is the new one
exactly when the response carries one, the old one otherwise; the
operation result is that same token set. -/
theorem c6_refresh_rotation :
    ∀ (c : Client) (cfg : OAuthConfig) (tOld : OAuthTokens) (rt : String)
      (now : Nat) (resp : TokenResponse),
      c.oauth_config = some cfg →
      c.store = some tOld →
      tOld.refresh_token = some rt →
      (c.refresh_oauth_token now (.ok resp)).client.store =
        some { access_token := resp.access_token
               refresh_token :=
                 (match resp.refresh_token with
                  | some r => some r
                  | none => some rt)
               scope := resp.scope
               expires_at := now + resp.expires_in } ∧
      (c.refresh_oauth_token now (.ok resp)).result =
        .ok { access_token := resp.access_token
              refresh_token :=
                (match resp.refresh_token with
                 | some r => some r
                 | none => some rt)
              scope := resp.scope
              expires_at := now + resp.expires_in } ∧
      (c.refresh_oauth_token now (.ok resp)).network_calls = 1 := by
  intro c cfg tOld rt now resp h1 h2 h3
  cases hr : resp.refresh_token <;>
    simp [Client.refresh_oauth_token, h1, h2, h3, hr, OAuthTokens.issue,
      TokenStore.set]

/-- C6 witness: concrete rotation check — a response without a
refresh_token keeps the stored one. -/
theorem c6_witness :
    (({ Client.mkNew (some ⟨"id", "sec", true, none⟩) with
        store := some ⟨"a0", some "r0", none, 100⟩ }).refresh_oauth_token
      10 (.ok ⟨"a1", none, 50, none⟩)).client.store =
      some ⟨"a1", some "r0", none, 60⟩ :=
  (c6_refresh_rotation
    { Client.mkNew (some ⟨"id", "sec", true, none⟩) with
      store := some ⟨"a0", some "r0", none, 100⟩ }
    ⟨"id", "sec", true, none⟩ ⟨"a0", some "r0", none, 100⟩ "r0" 10
    ⟨"a1", none, 50, none⟩ rfl rfl rfl).1

/-- C8: strategy selection on initialize — a provided user_access_token
selects UserContextExchange, none selects ClientCredentials, and an
`initialize_oauth` call on a configured client records exactly the
selected strategy as the issuance strategy. -/
theorem c8_initialize_strategy_selection :
    ∀ (u : Option String),
      (∀ t, u = some t →
        selectInitStrategy u = .userContextExchange) ∧
      (u = none → selectInitStrategy u = .clientCredentials) ∧
      (∀ (c : Client) (cfg : OAuthConfig) (now : Nat)
        (o : Except OAuthError TokenResponse),
        c.oauth_config = some cfg →
        (c.initialize_oauth u now o).client.issuance_strategy =
          some (selectInitStrategy u)) := by
  intro u
  refine ⟨?_, ?_, ?_⟩
  · intro t h; subst h; rfl
  · intro h; subst h; rfl
  · intro c cfg now o h
    cases o <;> simp [Client.initialize_oauth, h]

/-- C8 witness: with a user token the strategy is UserContextExchange and
it is recorded by initialize; with none it is ClientCredentials. -/
theorem c8_witness :
    selectInitStrategy (some "ut") = .userContextExchange ∧
    selectInitStrategy none = .clientCredentials ∧
    ((Client.mkNew (some ⟨"id", "sec", true, none⟩)).initialize_oauth
      (some "ut") 0 (.error .authError)).client.issuance_strategy =
      some GrantStrategy.userContextExchange :=
  ⟨(c8_initialize_strategy_selection (some "ut")).1 "ut" rfl,
   (c8_initialize_strategy_selection none).2.1 rfl,
   (c8_initialize_strategy_selection (some "ut")).2.2
     (Client.mkNew (some ⟨"id", "sec", true, none⟩))
     ⟨"id", "sec", true, none⟩ 0 (.error .authError) rfl⟩

/-- C9: with `auto_refresh = false` and a seed refresh_token in the
config, an explicit `refresh_oauth_token` call still issues exactly one
exchange — it is never blocked or rejected because auto_refresh is false:
an error outcome is surfaced as that error, a success outcome stores the
new token set; moreover the flag value is immaterial to the result. -/
theorem c9_manual_refresh_not_blocked :
    ∀ (c : Client) (cfg : OAuthConfig) (rt : String) (now : Nat)
      (o : Except OAuthError TokenResponse),
      c.oauth_config = some cfg →
      cfg.auto_refresh = false →
      cfg.refresh_token = some rt →
      (c.refresh_oauth_token now o).network_calls = 1 ∧
      (∀ e, o = .error e →
        (c.refresh_oauth_token now o).result = .error e) ∧
      (∀ resp, o = .ok resp → ∃ tok,
        (c.refresh_oauth_token now o).result = .ok tok ∧
        (c.refresh_oauth_token now o).client.store = some tok) ∧
      (∀ b : Bool,
        ((c.set_oauth_config { cfg with auto_refresh := b }).refresh_oauth_token
              now o).result = (c.refresh_oauth_token now o).result ∧
        ((c.set_oauth_config { cfg with auto_refresh := b }).refresh_oauth_token
              now o).network_calls =
          (c.refresh_oauth_token now o).network_calls) := by
  intro c cfg rt now o h1 h2 h3
  cases hs : c.store with
  | none =>
    cases o <;>
      simp [Client.refresh_oauth_token, Client.set_oauth_config, h1, h3, hs,
        OAuthTokens.issue, TokenStore.set]
  | some t =>
    cases ht : t.refresh_token <;> cases o <;>
      simp [Client.refresh_oauth_token, Client.set_oauth_config, h1, h3, hs,
        ht, OAuthTokens.issue, TokenStore.set]

/-- C9 witness: a client configured with auto_refresh=false and a seed
refresh_token still performs the explicit refresh (one network call). -/
theorem c9_witness :
    ((Client.mkNew (some ⟨"id", "sec", false, some "r0"⟩)).refresh_oauth_token
      0 (.error .networkError)).network_calls = 1 :=
  (c9_manual_refresh_not_blocked
    (Client.mkNew (some ⟨"id", "sec", false, some "r0"⟩))
    ⟨"id", "sec", false, some "r0"⟩ "r0" 0 (.error .networkError)
    rfl rfl rfl).1

/-- C7: the authorize-URL builder is a pure function (a plain function of
its input in this embedding, hence deterministic, with no effect): for
every request whose target_tenant_id is set the URL contains the
URL-encoded tenant parameter, for every request without one the URL is
exactly the four-parameter form with no tenant parameter, and on the input
client_id "c1", redirect_uri "https://x/cb", state "s1", tenant 456 the
URL contains the URL-encoded run
client_id=c1&redirect_uri=https%3A%2F%2Fx%2Fcb&state=s1&response_type=code
and the tenant parameter tenant_id=456, for every endpoint base. -/
theorem c7_authorize_url_builder :
    (∀ (base : String) (r : OAuthAuthorizeCodeRequest) (t : Nat),
      r.target_tenant_id = some t →
      strContains (buildAuthorizeURL base r) ("&tenant_id=" ++ toString t)
        = true) ∧
    (∀ (base : String) (r : OAuthAuthorizeCodeRequest),
      r.target_tenant_id = none →
      buildAuthorizeURL base r =
        base ++ "?" ++ ("client_id=" ++ urlencode r.client_id ++
          "&redirect_uri=" ++ urlencode r.redirect_uri ++ "&state=" ++
          urlencode r.state ++ "&response_type=code")) ∧
    (∀ base : String,
      strContains (buildAuthorizeURL base ⟨"c1", "https://x/cb", "s1", some 456⟩)
        "client_id=c1&redirect_uri=https%3A%2F%2Fx%2Fcb&state=s1&response_type=code"
        = true) ∧
    (∀ base : String,
      strContains (buildAuthorizeURL base ⟨"c1", "https://x/cb", "s1", some 456⟩)
        "tenant_id=456" = true) ∧
    strContains (buildAuthorizeURL "https://auth.example/authorize"
      ⟨"c1", "https://x/cb", "s1", none⟩) "tenant_id=" = false := by
  refine ⟨?_, ?_, ?_, ?_, ?_⟩
  · intro base r t h
    have hEq : buildAuthorizeURL base r =
        (base ++ "?" ++ ("client_id=" ++ urlencode r.client_id ++
          "&redirect_uri=" ++ urlencode r.redirect_uri ++ "&state=" ++
          urlencode r.state ++ "&response_type=code")) ++
          ("&tenant_id=" ++ toString t) := by
      simp [buildAuthorizeURL, authorizeQuery, h, String.append_assoc]
    rw [hEq]
    exact strContains_append_self _ _
  · intro base r h
    simp [buildAuthorizeURL, authorizeQuery, h, String.append_assoc]
  · intro base
    show hasSub _ _ = true
    rw [show buildAuthorizeURL base ⟨"c1", "https://x/cb", "s1", some 456⟩
        = (base ++ "?") ++ authorizeQuery ⟨"c1", "https://x/cb", "s1", some 456⟩
      from rfl]
    rw [String.data_append]
    exact hasSub_append_left _ (by decide)
  · intro base
    show hasSub _ _ = true
    rw [show buildAuthorizeURL base ⟨"c1", "https://x/cb", "s1", some 456⟩
        = (base ++ "?") ++ authorizeQuery ⟨"c1", "https://x/cb", "s1", some 456⟩
      from rfl]
    rw [String.data_append]
    exact hasSub_append_left _ (by decide)
  · decide

/-- C7 witness: the tenant conjunct applied at a concrete base and the
concrete request of the claim. -/
theorem c7_witness :
    strContains
      (buildAuthorizeURL "https://auth.example/authorize"
        ⟨"c1", "https://x/cb", "s1", some 456⟩)
      ("&tenant_id=" ++ toString 456) = true :=
  c7_authorize_url_builder.1 "https://auth.example/authorize"
    ⟨"c1", "https://x/cb", "s1", some 456⟩ 456 rfl

/-- C1: in the interleaving model of spec section 5, for every number of
callers that invoke initialize concurrently while the manager is
Uninitialized and every exchange outcome, exactly one exchange request is
issued, every caller observes the same outcome, and along every event
sequence at most one exchange is in flight at any time. -/
theorem c1_single_exchange :
    ∀ (n : Nat) (o : Except OAuthError TokenResponse), 1 ≤ n →
      (initRun initState
        (List.replicate n InitEvent.arrive ++ [InitEvent.complete o])).exchangesIssued
        = 1 ∧
      (initRun initState
        (List.replicate n InitEvent.arrive ++ [InitEvent.complete o])).observations
        = List.replicate n o ∧
      (∀ x ∈ (initRun initState
        (List.replicate n InitEvent.arrive ++ [InitEvent.complete o])).observations,
        x = o) ∧
      (∀ es : List InitEvent, (initRun initState es).inFlight ≤ 1) := by
  intro n o hn
  have hrun := initRun_replicate_arrive n hn
  have hfin : initRun initState
      (List.replicate n InitEvent.arrive ++ [InitEvent.complete o]) =
      initStep ⟨.initializing, 1, 1, n, []⟩ (.complete o) := by
    rw [initRun_append, hrun]
    rfl
  refine ⟨?_, ?_, ?_, ?_⟩
  · rw [hfin]; cases o <;> rfl
  · rw [hfin]; cases o <;> rfl
  · rw [hfin]
    intro x hx
    cases o <;> exact List.eq_of_mem_replicate hx
  · intro es
    have h := invGate_run es initState ⟨by simp [initState], by simp [initState]⟩
    by_cases hp : (initRun initState es).phase = .initializing
    · rw [h.1 hp]
    · rw [h.2 hp]
      omega

/-- C1 witness: three concurrent callers and a failing exchange — still
exactly one exchange request is issued and all three observe the same
error. -/
theorem c1_witness :
    (initRun initState
      (List.replicate 3 InitEvent.arrive ++
        [InitEvent.complete (.error .authError)])).exchangesIssued = 1 ∧
    (initRun initState
      (List.replicate 3 InitEvent.arrive ++
        [InitEvent.complete (.error .authError)])).observations =
      List.replicate 3 (Except.error OAuthError.authError) :=
  ⟨(c1_single_exchange 3 (.error .authError) (by decide)).1,
   (c1_single_exchange 3 (.error .authError) (by decide)).2.1⟩

end Carthooks
